import Mathlib

/-
Verification of the graceful-shutdown coordinator (package graceful).

The Go source is shallowly embedded: the Manager struct becomes a state
record, each method becomes a state transformer, and the concurrency
primitives are modelled at the granularity at which the source makes them
atomic:

* sync.Once (manager.go, field shutdownOnce): Once.Do is an atomic
  test-and-run — concurrent callers of Do serialize, the body runs for
  exactly the first caller and later callers return after it finished.
  Accordingly doGracefulShutdown is an atomic state transformer and a set
  of concurrent trigger invocations is an arbitrary interleaving, i.e. an
  arbitrary finite sequence, of such transformers.
* The select race in waitForJobsWithTimeout (manager.go lines 113-124) is
  resolved by an explicit oracle `joinFirst : Bool` saying which of the
  two channel events became ready first.
* Job execution: a job's observable effect on the Manager is its outcome
  (normal return nil / normal return err / panic), so jobs are embedded as
  their outcomes and the recover-wrappers become functions from outcomes
  to error records.
* Go slices returned by Errors() are modelled by an explicit heap of
  arrays, so that aliasing (which list a mutation writes through) is
  expressible.
* Ordering internal to the once-body (cancel before launch) is expressed
  by an event trace emitted by doGracefulShutdown.
-/

namespace Graceful

/-- Error records collected in Manager.errors.  A record is either an error
value returned by a job, a recovered panic re-expressed as an error
("panic in running job: %v" / "panic in shutdown job: %v",
manager.go lines 165 and 219), or the synthetic timeout error
"shutdown timeout exceeded: %v" carrying the configured duration
(manager.go line 120). -/
inductive GErr where
  | jobError (e : String)
  | panicInRunningJob (v : String)
  | panicInShutdownJob (v : String)
  | shutdownTimeoutExceeded (timeout : Nat)
deriving DecidableEq, Repr

/-- The observable outcome of running one job body: normal return of nil,
normal return of a non-nil error, or a panic with a recovered value. -/
inductive JobOutcome where
  | ok
  | fail (e : String)
  | panicked (v : String)
deriving DecidableEq, Repr

/-- A ShutdownJob (func() error) is embedded as the outcome it produces
when run. -/
abbrev ShutdownJob := JobOutcome

/-- Logger configuration value: the default logger built by NewLogger
(logger_default.go) or a caller-supplied one. -/
inductive LoggerTag where
  | defaultLogger
  | custom (n : Nat)
deriving DecidableEq, Repr

/-- Parent-context configuration value: context.Background() or a
caller-supplied context. -/
inductive CtxTag where
  | background
  | custom (n : Nat)
deriving DecidableEq, Repr

/-- State of the Manager struct (manager.go lines 44-56).  The two
contexts are represented by their cancelled-flags, sync.Once by its
fired-flag, and time.Duration by nanoseconds as Nat. -/
structure Manager where
  shutdownCtxCancelled : Bool
  doneCtxCancelled : Bool
  shutdownOnceFired : Bool
  errors : List GErr
  runAtShutdown : List ShutdownJob
  shutdownTimeout : Nat
  logger : LoggerTag
  parentCtx : CtxTag
deriving DecidableEq, Repr

/-- Events emitted by the body of doGracefulShutdown, in program order:
cancelling the shutdown context, taking the defensive copy of the
registry, and handing one job to routineGroup.Run. -/
inductive Event where
  | cancelCtx
  | snapshot (jobs : List ShutdownJob)
  | launch (j : ShutdownJob)
deriving DecidableEq, Repr

def isCancelEvent : Event → Bool
  | Event.cancelCtx => true
  | _ => false

def isSnapshotEvent : Event → Bool
  | Event.snapshot _ => true
  | _ => false

/-- Jobs handed to the worker group, extracted from a trace in launch
order. -/
def launchedJobs (tr : List Event) : List ShutdownJob :=
  tr.filterMap fun e =>
    match e with
    | Event.launch j => some j
    | _ => none

/-- Manager.doGracefulShutdown (manager.go lines 68-92).  The body is
guarded by shutdownOnce: when the guard has fired the call returns at
once with no effect and an empty trace.  On first fire the body cancels
the shutdown context, copies the registry under the read lock, and
launches every copied job on the worker group; the emitted trace lists
these steps in program order. -/
def Manager.doGracefulShutdown (g : Manager) : Manager × List Event :=
  if g.shutdownOnceFired then (g, [])
  else
    let jobs := g.runAtShutdown
    ({ g with shutdownOnceFired := true, shutdownCtxCancelled := true },
      Event.cancelCtx :: Event.snapshot jobs :: jobs.map Event.launch)

/-- Manager.doShutdownJob (manager.go lines 161-177): runs one shutdown
job; a returned error is appended under the write lock, and a panic is
recovered and appended as a "panic in shutdown job" record. -/
def Manager.doShutdownJob (g : Manager) (r : JobOutcome) : Manager :=
  match r with
  | JobOutcome.ok => g
  | JobOutcome.fail e => { g with errors := g.errors ++ [GErr.jobError e] }
  | JobOutcome.panicked v =>
      { g with errors := g.errors ++ [GErr.panicInShutdownJob v] }

/-- Completion of the wrapper that AddRunningJob (manager.go lines
214-232) puts around a running job: a returned error is appended, a panic
is recovered and appended as a "panic in running job" record. -/
def Manager.runningJobDone (g : Manager) (r : JobOutcome) : Manager :=
  match r with
  | JobOutcome.ok => g
  | JobOutcome.fail e => { g with errors := g.errors ++ [GErr.jobError e] }
  | JobOutcome.panicked v =>
      { g with errors := g.errors ++ [GErr.panicInRunningJob v] }

/-- Manager.AddShutdownJob (manager.go lines 186-190): appends the job to
the registry under the write lock. -/
def Manager.AddShutdownJob (g : Manager) (j : ShutdownJob) : Manager :=
  { g with runAtShutdown := g.runAtShutdown ++ [j] }

/-- Manager.waitForJobsWithTimeout (manager.go lines 100-125).  With a
zero timeout it waits for the group join and returns; otherwise it races
the join side-channel against time.After, the oracle joinFirst telling
which select case became ready first.  Only the timeout branch mutates
state: it appends the synthetic timeout error carrying the configured
duration. -/
def Manager.waitForJobsWithTimeout (g : Manager) (joinFirst : Bool) : Manager :=
  if g.shutdownTimeout = 0 then g
  else if joinFirst then g
  else { g with errors :=
          g.errors ++ [GErr.shutdownTimeoutExceeded g.shutdownTimeout] }

/-- The watcher goroutine spawned at manager.go lines 87-90: run
waitForJobsWithTimeout, then cancel the done context. -/
def Manager.shutdownWatcher (g : Manager) (joinFirst : Bool) : Manager :=
  let g1 := g.waitForJobsWithTimeout joinFirst
  { g1 with doneCtxCancelled := true }

/-- Manager.Errors value (manager.go lines 280-287): the sequence of
collected failures at the time of the call (the returned slice is a fresh
copy holding this sequence; the copying itself is modelled by
SliceHeap.Errors below). -/
def Manager.Errors (g : Manager) : List GErr :=
  g.errors

/-- The three kinds of shutdown trigger (manager.go: signal reception,
parent-context cancellation, direct call of doGracefulShutdown). -/
inductive Trigger where
  | signalSIGINT
  | signalSIGTERM
  | tokenCancelled
  | direct
deriving DecidableEq, Repr

/-- Every trigger path converges on doGracefulShutdown. -/
def Manager.triggerShutdown (g : Manager) (_t : Trigger) : Manager × List Event :=
  g.doGracefulShutdown

/-- An interleaving of trigger invocations, applied in sequence;
the traces of the individual invocations are concatenated. -/
def Manager.runTriggers : Manager → List Trigger → Manager × List Event
  | g, [] => (g, [])
  | g, t :: ts =>
      let p := g.triggerShutdown t
      let q := Manager.runTriggers p.1 ts
      (q.1, p.2 ++ q.2)

/-- Operating-system signals relevant to the listener: the three signals
subscribed on linux/bsd/darwin plus a representative for any other
signal value reaching the default branch of the switch. -/
inductive Sig where
  | sigint
  | sigterm
  | sigtstp
  | otherSig (n : Nat)
deriving DecidableEq, Repr

/-- The subscribed signal set on linux/bsd/darwin:
var signals = []os.Signal\x7bsyscall.SIGINT, syscall.SIGTERM, syscall.SIGTSTP\x7d. -/
def signals : List Sig :=
  [Sig.sigint, Sig.sigterm, Sig.sigtstp]

/-- One wake-up of the select in Manager.handleSignals: a signal arriving
on the channel, or the parent context becoming done. -/
inductive ListenEvent where
  | signal (s : Sig)
  | ctxDone
deriving DecidableEq, Repr

/-- Log line written by the listener for an event (the PID prefix and
formatting are elided; what matters is which cause is logged). -/
def listenLogLine : ListenEvent → String
  | ListenEvent.signal Sig.sigint => "Received SIGINT. Shutting down..."
  | ListenEvent.signal Sig.sigterm => "Received SIGTERM. Shutting down..."
  | ListenEvent.signal Sig.sigtstp => "Received SIGTSTP."
  | ListenEvent.signal (Sig.otherSig _) => "Received other signal."
  | ListenEvent.ctxDone => "Background context for manager closed - Shutting down..."

/-- Result of running the listener loop on a finite schedule of wake-ups:
the manager state, how many times doGracefulShutdown was invoked, the log
lines in order, and whether the loop returned (stopped listening). -/
structure ListenOutcome where
  manager : Manager
  shutdownInvocations : Nat
  loggedLines : List String
  stopped : Bool
deriving DecidableEq, Repr

/-- Manager.handleSignals (manager.go lines 127-158), run on a finite
schedule of wake-ups.  SIGINT, SIGTERM and parent-context cancellation
each log, invoke doGracefulShutdown and return from the loop (later
events of the schedule are not consumed); every other received signal —
including SIGTSTP, which falls through to the default case of the switch
— is logged and the loop continues. -/
def Manager.handleSignals : Manager → List ListenEvent → ListenOutcome
  | g, [] =>
      { manager := g, shutdownInvocations := 0, loggedLines := [], stopped := false }
  | g, ListenEvent.signal Sig.sigint :: _ =>
      { manager := (g.doGracefulShutdown).1, shutdownInvocations := 1,
        loggedLines := [listenLogLine (ListenEvent.signal Sig.sigint)], stopped := true }
  | g, ListenEvent.signal Sig.sigterm :: _ =>
      { manager := (g.doGracefulShutdown).1, shutdownInvocations := 1,
        loggedLines := [listenLogLine (ListenEvent.signal Sig.sigterm)], stopped := true }
  | g, ListenEvent.ctxDone :: _ =>
      { manager := (g.doGracefulShutdown).1, shutdownInvocations := 1,
        loggedLines := [listenLogLine ListenEvent.ctxDone], stopped := true }
  | g, ListenEvent.signal Sig.sigtstp :: rest =>
      let r := Manager.handleSignals g rest
      { r with loggedLines := listenLogLine (ListenEvent.signal Sig.sigtstp) :: r.loggedLines }
  | g, ListenEvent.signal (Sig.otherSig n) :: rest =>
      let r := Manager.handleSignals g rest
      { r with loggedLines := listenLogLine (ListenEvent.signal (Sig.otherSig n)) :: r.loggedLines }

/-- Heap of error arrays, for the aliasing behaviour of the slices
handled by Manager.Errors: each cell is one backing array; a slice is a
reference (index) into the heap. -/
structure SliceHeap where
  cells : List (List GErr)
deriving DecidableEq, Repr

/-- Contents of the array a reference points to. -/
def SliceHeap.readArr (h : SliceHeap) (r : Nat) : List GErr :=
  (h.cells.get? r).getD []

/-- Mutation through a slice: overwrite the backing array the reference
points to. -/
def SliceHeap.writeArr (h : SliceHeap) (r : Nat) (v : List GErr) : SliceHeap :=
  ⟨h.cells.set r v⟩

/-- Manager.Errors (manager.go lines 280-287) at the heap level: under
the read lock, allocate a fresh array (make), copy the internal array
into it, and return a reference to the fresh array. -/
def SliceHeap.Errors (h : SliceHeap) (internalRef : Nat) : SliceHeap × Nat :=
  (⟨h.cells ++ [h.readArr internalRef]⟩, h.cells.length)

/-- Configuration record (Options struct): parent context, logger,
shutdown timeout in nanoseconds. -/
structure Options where
  ctx : CtxTag
  logger : LoggerTag
  shutdownTimeout : Nat
deriving DecidableEq, Repr

/-- A configuration modifier (the Option interface: Apply mutates the
Options being built). -/
def GOption := Options → Options

/-- WithContext. -/
def WithContext (c : CtxTag) : GOption :=
  fun o => { o with ctx := c }

/-- WithLogger. -/
def WithLogger (l : LoggerTag) : GOption :=
  fun o => { o with logger := l }

/-- WithShutdownTimeout. -/
def WithShutdownTimeout (t : Nat) : GOption :=
  fun o => { o with shutdownTimeout := t }

/-- One second of time.Duration, in nanoseconds. -/
def second : Nat := 1000000000

/-- newOptions: start from the defaults (background context, NewLogger,
30 seconds) and apply each supplied modifier in order. -/
def newOptions (opts : List GOption) : Options :=
  opts.foldl (fun o f => f o)
    { ctx := CtxTag.background, logger := LoggerTag.defaultLogger,
      shutdownTimeout := 30 * second }

/-- The Manager value built inside newManager's once-body and started by
Manager.start: fresh contexts (nothing cancelled), empty error list and
registry, unfired once-guard, configuration taken from the options. -/
def mkManager (o : Options) : Manager :=
  { shutdownCtxCancelled := false
    doneCtxCancelled := false
    shutdownOnceFired := false
    errors := []
    runAtShutdown := []
    shutdownTimeout := o.shutdownTimeout
    logger := o.logger
    parentCtx := o.ctx }

/-- Process-global state around the singleton: the package-level manager
variable, the startOnce guard, and whether the signal-listener goroutine
has been started by Manager.start. -/
structure Global where
  manager : Option Manager
  startOnceFired : Bool
  listenerStarted : Bool
deriving DecidableEq, Repr

/-- newManager (manager.go lines 289-303): under startOnce, build the
manager from the options and start it (which launches handleSignals in
the background); afterwards — and on every later call — the function
returns the package-level manager variable, which is the manager field of
the resulting Global. -/
def newManagerG (g : Global) (opts : List GOption) : Global :=
  if g.startOnceFired then g
  else
    { manager := some (mkManager (newOptions opts)),
      startOnceFired := true,
      listenerStarted := true }

/-- The panic message of GetManager. -/
def GetManagerMsg : String := "please use NewManager to initial the manager first"

/-- GetManager (manager.go lines 344-350): panics when the package-level
manager is nil, otherwise returns it; the panic is embedded as
Except.error carrying the panic message. -/
def GetManagerG (g : Global) : Except String Manager :=
  match g.manager with
  | none => Except.error GetManagerMsg
  | some m => Except.ok m

/-- Operations of the Manager that touch its state, for the append-only
invariant on the error sequence: completion of a running job's wrapper,
completion of a shutdown job, registry insertion, a shutdown trigger, and
the watcher resolving the deadline race (joinFirst = which side won). -/
inductive MOp where
  | runningJobDone (r : JobOutcome)
  | shutdownJobDone (r : JobOutcome)
  | addShutdownJob (j : ShutdownJob)
  | gracefulShutdown
  | watcher (joinFirst : Bool)
deriving DecidableEq, Repr

def Manager.stepOp (g : Manager) : MOp → Manager
  | MOp.runningJobDone r => g.runningJobDone r
  | MOp.shutdownJobDone r => g.doShutdownJob r
  | MOp.addShutdownJob j => g.AddShutdownJob j
  | MOp.gracefulShutdown => (g.doGracefulShutdown).1
  | MOp.watcher b => g.shutdownWatcher b

def Manager.runOps (g : Manager) : List MOp → Manager
  | [] => g
  | op :: ops => Manager.runOps (g.stepOp op) ops

/-- One error sequence extends another when it appends records at the
end, removing, replacing and reordering nothing. -/
def seqExtends (a b : List GErr) : Prop :=
  ∃ d, b = a ++ d

/- Helper lemmas. -/

lemma doGracefulShutdown_of_fired (g : Manager) (h : g.shutdownOnceFired = true) :
    g.doGracefulShutdown = (g, []) := by
  simp [Manager.doGracefulShutdown, h]

lemma doGracefulShutdown_of_unfired (g : Manager) (h : g.shutdownOnceFired = false) :
    g.doGracefulShutdown =
      ({ g with shutdownOnceFired := true, shutdownCtxCancelled := true },
        Event.cancelCtx :: Event.snapshot g.runAtShutdown ::
          g.runAtShutdown.map Event.launch) := by
  simp [Manager.doGracefulShutdown, h]

lemma runTriggers_of_fired (g : Manager) (h : g.shutdownOnceFired = true) :
    ∀ ts : List Trigger, Manager.runTriggers g ts = (g, []) := by
  intro ts
  induction ts with
  | nil => rfl
  | cons t ts ih =>
      simp [Manager.runTriggers, Manager.triggerShutdown,
        doGracefulShutdown_of_fired g h, ih]

lemma countP_cancel_map_launch (jobs : List ShutdownJob) :
    List.countP isCancelEvent (jobs.map Event.launch) = 0 := by
  induction jobs with
  | nil => rfl
  | cons j js ih => simp [List.countP_cons, isCancelEvent, ih]

lemma countP_snapshot_map_launch (jobs : List ShutdownJob) :
    List.countP isSnapshotEvent (jobs.map Event.launch) = 0 := by
  induction jobs with
  | nil => rfl
  | cons j js ih => simp [List.countP_cons, isSnapshotEvent, ih]

lemma launchedJobs_map_launch (jobs : List ShutdownJob) :
    launchedJobs (jobs.map Event.launch) = jobs := by
  induction jobs with
  | nil => rfl
  | cons j js ih =>
      simp only [List.map_cons, launchedJobs, List.filterMap_cons] at ih ⊢
      simp [ih]

/- Claim C1. -/

/-- Conclusion of claim C1 for an unfired manager g: any nonempty
interleaving of triggers, of any mix of kinds, has the same final state
and the same total trace as a single invocation; that one firing cancels
the context exactly once and snapshots the registry exactly once; and
once the guard has fired every further invocation returns with no effect
and an empty trace. -/
def singleFireSpec (g : Manager) : Prop :=
  (∀ (t : Trigger) (ts : List Trigger),
      Manager.runTriggers g (t :: ts) = g.doGracefulShutdown) ∧
  List.countP isCancelEvent (g.doGracefulShutdown).2 = 1 ∧
  List.countP isSnapshotEvent (g.doGracefulShutdown).2 = 1 ∧
  (g.doGracefulShutdown).1.shutdownOnceFired = true ∧
  (∀ g2 : Manager, g2.shutdownOnceFired = true → g2.doGracefulShutdown = (g2, []))

/-- Claim C1: the shutdown routine executes its body at most once per
process lifetime; for any number of invocations from any mix of triggers,
the context cancellation, the registry snapshot and the job fan-out
happen exactly once, and every invocation after the first returns without
re-running the body. -/
theorem doGracefulShutdown_single_fire (g : Manager)
    (h : g.shutdownOnceFired = false) : singleFireSpec g := by
  have hfire := doGracefulShutdown_of_unfired g h
  refine ⟨?_, ?_, ?_, ?_, ?_⟩
  · intro t ts
    have hfired :
        (g.doGracefulShutdown).1.shutdownOnceFired = true := by
      rw [hfire]
    calc Manager.runTriggers g (t :: ts)
        = ((Manager.runTriggers (g.doGracefulShutdown).1 ts).1,
            (g.doGracefulShutdown).2 ++
              (Manager.runTriggers (g.doGracefulShutdown).1 ts).2) := by
          simp [Manager.runTriggers, Manager.triggerShutdown]
      _ = g.doGracefulShutdown := by
          rw [runTriggers_of_fired _ hfired ts]
          simp
  · rw [hfire]
    simp [List.countP_cons, isCancelEvent, isSnapshotEvent,
      countP_cancel_map_launch]
  · rw [hfire]
    simp [List.countP_cons, isCancelEvent, isSnapshotEvent,
      countP_snapshot_map_launch]
  · rw [hfire]
  · intro g2 h2
    exact doGracefulShutdown_of_fired g2 h2

/-- Witness for C1 at a concrete freshly constructed manager. -/
theorem doGracefulShutdown_single_fire_witness :
    (mkManager (newOptions [])).shutdownOnceFired = false ∧
      singleFireSpec (mkManager (newOptions [])) :=
  ⟨rfl, doGracefulShutdown_single_fire _ rfl⟩

/- Claim C2. -/

/-- Conclusion of claim C2 for an unfired manager g: the first event of
the firing trace is the context cancellation, the resulting state has the
context cancelled, and every launch event sits strictly after the
cancellation. -/
def cancelBeforeLaunchSpec (g : Manager) : Prop :=
  (g.doGracefulShutdown).2.get? 0 = some Event.cancelCtx ∧
  (g.doGracefulShutdown).1.shutdownCtxCancelled = true ∧
  ∀ (i : Nat) (j : ShutdownJob),
    (g.doGracefulShutdown).2.get? i = some (Event.launch j) → 0 < i

/-- Claim C2: on the first firing, the shutdown context is cancelled
strictly before any shutdown job is launched on the worker group; no job
launch precedes the cancellation in the body's program order. -/
theorem cancel_before_launch (g : Manager)
    (h : g.shutdownOnceFired = false) : cancelBeforeLaunchSpec g := by
  have hfire := doGracefulShutdown_of_unfired g h
  refine ⟨?_, ?_, ?_⟩
  · rw [hfire]
    rfl
  · rw [hfire]
  · intro i j hi
    rw [hfire] at hi
    cases i with
    | zero => simp at hi
    | succ k => exact Nat.succ_pos k

/-- Witness for C2 at a concrete manager holding one registered shutdown
job, so that the trace really contains a launch event. -/
theorem cancel_before_launch_witness :
    ((mkManager (newOptions [])).AddShutdownJob JobOutcome.ok).shutdownOnceFired
        = false ∧
      cancelBeforeLaunchSpec
        ((mkManager (newOptions [])).AddShutdownJob JobOutcome.ok) :=
  ⟨rfl, cancel_before_launch _ rfl⟩

/- Claim C6. -/

/-- Conclusion of claim C6 for an unfired manager g: the jobs handed to
the worker group by the firing are exactly the registry contents at fire
time, in order and with multiplicity (so each registered job launches
exactly once); registration appends to the registry; and a job registered
after the fire is never launched by any later invocation. -/
def defensiveCopySpec (g : Manager) : Prop :=
  launchedJobs (g.doGracefulShutdown).2 = g.runAtShutdown ∧
  (∀ j : ShutdownJob,
      (g.AddShutdownJob j).runAtShutdown = g.runAtShutdown ++ [j]) ∧
  (∀ j : ShutdownJob,
      (((g.doGracefulShutdown).1.AddShutdownJob j).doGracefulShutdown).2 = [])

/-- Claim C6: the shutdown routine takes a defensive copy of the registry
before fan-out and launches exactly the jobs in that copy, each exactly
once; a job added after the copy is taken is never executed. -/
theorem defensive_copy_fanout (g : Manager)
    (h : g.shutdownOnceFired = false) : defensiveCopySpec g := by
  have hfire := doGracefulShutdown_of_unfired g h
  refine ⟨?_, ?_, ?_⟩
  · rw [hfire]
    have hmap := launchedJobs_map_launch g.runAtShutdown
    simp only [launchedJobs, List.filterMap_cons] at hmap ⊢
    exact hmap
  · intro j
    simp [Manager.AddShutdownJob]
  · intro j
    rw [hfire]
    exact congrArg Prod.snd (doGracefulShutdown_of_fired _ rfl)

/-- Witness for C6 at a concrete manager holding two registered shutdown
jobs. -/
theorem defensive_copy_fanout_witness :
    (((mkManager (newOptions [])).AddShutdownJob JobOutcome.ok).AddShutdownJob
          (JobOutcome.fail "e")).shutdownOnceFired = false ∧
      defensiveCopySpec
        (((mkManager (newOptions [])).AddShutdownJob JobOutcome.ok).AddShutdownJob
          (JobOutcome.fail "e")) :=
  ⟨rfl, defensive_copy_fanout _ rfl⟩

/- Claim C3. -/

/-- Conclusion of claim C3 for a manager with non-zero timeout: when the
join side wins the race the state is untouched; when the deadline side
wins exactly the synthetic timeout error carrying the configured duration
is appended; and whichever side wins, the number of appended records is
zero or one accordingly — one branch, no retry. -/
def deadlineRaceSpec (g : Manager) : Prop :=
  g.waitForJobsWithTimeout true = g ∧
  (g.waitForJobsWithTimeout false).errors =
      g.errors ++ [GErr.shutdownTimeoutExceeded g.shutdownTimeout] ∧
  ∀ b : Bool, (g.waitForJobsWithTimeout b).errors.length =
      g.errors.length + (if b then 0 else 1)

/-- Claim C3: with a non-zero configured timeout exactly one branch of
the deadline race executes; join-first appends no failure, timeout-first
appends one synthetic failure naming the configured duration. -/
theorem deadline_race_one_branch (g : Manager) (h : g.shutdownTimeout ≠ 0) :
    deadlineRaceSpec g := by
  refine ⟨?_, ?_, ?_⟩
  · simp [Manager.waitForJobsWithTimeout, h]
  · simp [Manager.waitForJobsWithTimeout, h]
  · intro b
    cases b <;> simp [Manager.waitForJobsWithTimeout, h]

/-- Witness for C3 at a concrete manager configured with a 3-second
timeout. -/
theorem deadline_race_one_branch_witness :
    (mkManager (newOptions [WithShutdownTimeout (3 * second)])).shutdownTimeout ≠ 0 ∧
      deadlineRaceSpec (mkManager (newOptions [WithShutdownTimeout (3 * second)])) :=
  ⟨by decide, deadline_race_one_branch _ (by decide)⟩

/- Claim C4. -/

/-- Conclusion of claim C4 for a manager with zero timeout: the watcher
waits for the join unconditionally, returning the state unchanged however
the race oracle resolves, and the watcher run never appends a failure —
it only cancels the done context. -/
def unboundedWaitSpec (g : Manager) : Prop :=
  (∀ b : Bool, g.waitForJobsWithTimeout b = g) ∧
  ∀ b : Bool, (g.shutdownWatcher b).errors = g.errors ∧
      (g.shutdownWatcher b).doneCtxCancelled = true

/-- Claim C4: if the configured shutdown timeout is zero the watcher
waits unboundedly for the worker-group join and returns, and no timeout
failure is ever appended, whatever the jobs do. -/
theorem zero_timeout_waits_unbounded (g : Manager) (h : g.shutdownTimeout = 0) :
    unboundedWaitSpec g := by
  constructor
  · intro b
    simp [Manager.waitForJobsWithTimeout, h]
  · intro b
    refine ⟨?_, ?_⟩ <;>
      simp [Manager.shutdownWatcher, Manager.waitForJobsWithTimeout, h]

/-- Witness for C4 at a concrete manager configured with timeout 0. -/
theorem zero_timeout_waits_unbounded_witness :
    (mkManager (newOptions [WithShutdownTimeout 0])).shutdownTimeout = 0 ∧
      unboundedWaitSpec (mkManager (newOptions [WithShutdownTimeout 0])) :=
  ⟨by decide, zero_timeout_waits_unbounded _ (by decide)⟩

/- Claim C5. -/

lemma readArr_alloc_new (h : SliceHeap) (a : List GErr) :
    SliceHeap.readArr ⟨h.cells ++ [a]⟩ h.cells.length = a := by
  simp [SliceHeap.readArr, List.getElem?_concat_length]

lemma readArr_alloc_old (h : SliceHeap) (a : List GErr) (i : Nat)
    (hi : i < h.cells.length) :
    SliceHeap.readArr ⟨h.cells ++ [a]⟩ i = h.readArr i := by
  simp [SliceHeap.readArr, List.getElem?_append_left hi]

lemma readArr_writeArr_ne (h : SliceHeap) (r i : Nat) (v : List GErr)
    (hne : r ≠ i) :
    (h.writeArr r v).readArr i = h.readArr i := by
  simp [SliceHeap.readArr, SliceHeap.writeArr, List.getElem?_set_ne hne]

/-- Conclusion of claim C5 for a heap h whose internal error array sits
at internalRef: an Errors call returns a reference whose contents equal
the internal array at call time, the call itself leaves the internal
array unchanged, the returned reference aliases neither the internal
array nor the reference returned by another Errors call, and writing
through a returned reference changes neither the internal array nor what
the other call returned. -/
def errorsSnapshotSpec (h : SliceHeap) (internalRef : Nat) : Prop :=
  ((h.Errors internalRef).1.readArr (h.Errors internalRef).2
      = h.readArr internalRef) ∧
  ((h.Errors internalRef).1.readArr internalRef = h.readArr internalRef) ∧
  ((h.Errors internalRef).2 ≠ internalRef) ∧
  (∀ v : List GErr,
      (((h.Errors internalRef).1.writeArr (h.Errors internalRef).2 v).readArr
          internalRef = h.readArr internalRef)) ∧
  (((h.Errors internalRef).1.Errors internalRef).1.readArr
      ((h.Errors internalRef).1.Errors internalRef).2 = h.readArr internalRef) ∧
  (∀ v : List GErr,
      ((((h.Errors internalRef).1.Errors internalRef).1.writeArr
            (h.Errors internalRef).2 v).readArr
          ((h.Errors internalRef).1.Errors internalRef).2
        = h.readArr internalRef))

/-- Claim C5: Errors() returns an independent copy of the accumulated
failure sequence; mutating a returned slice changes neither the internal
state nor what another Errors() call returned. -/
theorem Errors_snapshot_isolation (h : SliceHeap) (internalRef : Nat)
    (hvalid : internalRef < h.cells.length) :
    errorsSnapshotSpec h internalRef := by
  have h2 : SliceHeap.readArr ⟨h.cells ++ [h.readArr internalRef]⟩ internalRef
      = h.readArr internalRef :=
    readArr_alloc_old h _ internalRef hvalid
  have h5 : SliceHeap.readArr
      ⟨(h.cells ++ [h.readArr internalRef]) ++
        [SliceHeap.readArr ⟨h.cells ++ [h.readArr internalRef]⟩ internalRef]⟩
      (h.cells ++ [h.readArr internalRef]).length = h.readArr internalRef :=
    (readArr_alloc_new ⟨h.cells ++ [h.readArr internalRef]⟩ _).trans h2
  have hlen : h.cells.length ≠ (h.cells ++ [h.readArr internalRef]).length := by
    simp
  refine ⟨?_, ?_, ?_, ?_, ?_, ?_⟩
  · exact readArr_alloc_new h _
  · exact h2
  · exact Nat.ne_of_gt hvalid
  · intro v
    exact (readArr_writeArr_ne ⟨h.cells ++ [h.readArr internalRef]⟩
      h.cells.length internalRef v (Nat.ne_of_gt hvalid)).trans h2
  · exact h5
  · intro v
    exact (readArr_writeArr_ne
      ⟨(h.cells ++ [h.readArr internalRef]) ++
        [SliceHeap.readArr ⟨h.cells ++ [h.readArr internalRef]⟩ internalRef]⟩
      h.cells.length (h.cells ++ [h.readArr internalRef]).length v hlen).trans h5

/-- Witness for C5 at a concrete one-cell heap holding one collected
error. -/
theorem Errors_snapshot_isolation_witness :
    0 < (SliceHeap.mk [[GErr.jobError "boom"]]).cells.length ∧
      errorsSnapshotSpec (SliceHeap.mk [[GErr.jobError "boom"]]) 0 :=
  ⟨by decide, Errors_snapshot_isolation _ 0 (by decide)⟩

/- Claim C10. -/

lemma seqExtends_trans (a b c : List GErr) (h1 : seqExtends a b)
    (h2 : seqExtends b c) : seqExtends a c := by
  obtain ⟨d1, hd1⟩ := h1
  obtain ⟨d2, hd2⟩ := h2
  exact ⟨d1 ++ d2, by rw [hd2, hd1, List.append_assoc]⟩

lemma stepOp_extends (g : Manager) (op : MOp) :
    seqExtends g.errors (g.stepOp op).errors := by
  cases op with
  | runningJobDone r =>
      cases r with
      | ok => exact ⟨[], by simp [Manager.stepOp, Manager.runningJobDone]⟩
      | fail e => exact ⟨[GErr.jobError e], rfl⟩
      | panicked v => exact ⟨[GErr.panicInRunningJob v], rfl⟩
  | shutdownJobDone r =>
      cases r with
      | ok => exact ⟨[], by simp [Manager.stepOp, Manager.doShutdownJob]⟩
      | fail e => exact ⟨[GErr.jobError e], rfl⟩
      | panicked v => exact ⟨[GErr.panicInShutdownJob v], rfl⟩
  | addShutdownJob j =>
      exact ⟨[], by simp [Manager.stepOp, Manager.AddShutdownJob]⟩
  | gracefulShutdown =>
      have herr : (g.doGracefulShutdown).1.errors = g.errors := by
        cases hf : g.shutdownOnceFired <;>
          simp [Manager.doGracefulShutdown, hf]
      exact ⟨[], by simp [Manager.stepOp, herr]⟩
  | watcher b =>
      by_cases ht : g.shutdownTimeout = 0
      · exact ⟨[], by
          simp [Manager.stepOp, Manager.shutdownWatcher,
            Manager.waitForJobsWithTimeout, ht]⟩
      · cases b with
        | true => exact ⟨[], by
            simp [Manager.stepOp, Manager.shutdownWatcher,
              Manager.waitForJobsWithTimeout, ht]⟩
        | false => exact ⟨[GErr.shutdownTimeoutExceeded g.shutdownTimeout], by
            simp [Manager.stepOp, Manager.shutdownWatcher,
              Manager.waitForJobsWithTimeout, ht]⟩

lemma runOps_extends (g : Manager) (ops : List MOp) :
    seqExtends g.errors (g.runOps ops).errors := by
  induction ops generalizing g with
  | nil => exact ⟨[], by simp [Manager.runOps]⟩
  | cons op ops ih =>
      exact seqExtends_trans _ _ _ (stepOp_extends g op)
        (by simpa [Manager.runOps] using ih (g.stepOp op))

/-- Claim C10: the failure sequence is append-only — every single
operation of the Manager extends the sequence at its end and never
removes, replaces or reorders records, so the Errors() snapshot taken now
is an initial segment of the snapshot after any further sequence of
operations. -/
theorem errors_append_only (g : Manager) :
    (∀ op : MOp, seqExtends g.Errors (g.stepOp op).Errors) ∧
    ∀ ops : List MOp, seqExtends g.Errors (g.runOps ops).Errors :=
  ⟨fun op => stepOp_extends g op, fun ops => runOps_extends g ops⟩

/- Claim C7. -/

/-- Conclusion of claim C7 for a process whose startOnce guard has not
fired: the first constructor call builds the instance from the supplied
configuration and starts the listener; the defaults are background
context, default logger and a 30-second timeout; any call after the
guard has fired returns the global state — hence the same instance —
untouched by the new configuration; and re-invoking the constructor is
absorbed by the first call. -/
def singletonConstructorSpec (g : Global) : Prop :=
  (∀ opts : List GOption,
      newManagerG g opts =
        { manager := some (mkManager (newOptions opts)),
          startOnceFired := true, listenerStarted := true }) ∧
  newOptions [] =
      { ctx := CtxTag.background, logger := LoggerTag.defaultLogger,
        shutdownTimeout := 30 * second } ∧
  (∀ g2 : Global, g2.startOnceFired = true →
      ∀ opts2 : List GOption, newManagerG g2 opts2 = g2) ∧
  ∀ opts opts2 : List GOption,
      newManagerG (newManagerG g opts) opts2 = newManagerG g opts

/-- Claim C7: NewManager is an idempotent singleton constructor — the
first call builds the instance from the configuration (defaulting to a
background parent context, the default logger and a 30-second timeout)
and starts the signal listener, and every subsequent call with any
configuration returns the same instance unchanged. -/
theorem newManager_singleton (g : Global) (h : g.startOnceFired = false) :
    singletonConstructorSpec g := by
  refine ⟨?_, rfl, ?_, ?_⟩
  · intro opts
    simp [newManagerG, h]
  · intro g2 h2 opts2
    simp [newManagerG, h2]
  · intro opts opts2
    simp [newManagerG, h]

/-- Witness for C7 at the pristine global state of a fresh process. -/
theorem newManager_singleton_witness :
    (Global.mk none false false).startOnceFired = false ∧
      singletonConstructorSpec (Global.mk none false false) :=
  ⟨rfl, newManager_singleton _ rfl⟩

/- Claim C8. -/

/-- Conclusion of claim C8 for an arbitrary global state: GetManager
fails exactly when the package-level manager is still nil, and returns
the stored instance without error otherwise. -/
def getManagerSpec (g : Global) : Prop :=
  ((∃ e, GetManagerG g = Except.error e) ↔ g.manager = none) ∧
  ∀ m : Manager, g.manager = some m → GetManagerG g = Except.ok m

/-- Claim C8: GetManager fails fatally if and only if no Manager
instance has been created yet, and after a successful NewManager call it
returns the existing instance without error. -/
theorem GetManager_fatal_iff_uninitialized (g : Global) :
    getManagerSpec g ∧
    ∀ (g2 : Global) (opts : List GOption), g2.startOnceFired = false →
      GetManagerG (newManagerG g2 opts) =
        Except.ok (mkManager (newOptions opts)) := by
  refine ⟨⟨?_, ?_⟩, ?_⟩
  · cases hm : g.manager with
    | none => simp [GetManagerG, hm]
    | some m => simp [GetManagerG, hm]
  · intro m hm
    simp [GetManagerG, hm]
  · intro g2 opts h2
    simp [newManagerG, h2, GetManagerG]

/-- Witness for C8 at the pristine global state: GetManager fails there,
and succeeds right after the first NewManager call. -/
theorem GetManager_fatal_iff_uninitialized_witness :
    (Global.mk none false false).startOnceFired = false ∧
      GetManagerG (newManagerG (Global.mk none false false) []) =
        Except.ok (mkManager (newOptions [])) :=
  ⟨rfl, (GetManager_fatal_iff_uninitialized (Global.mk none false false)).2
    (Global.mk none false false) [] rfl⟩

/- Claim C9. -/

/-- The events that make handleSignals invoke the shutdown routine and
return: SIGINT, SIGTERM and parent-context cancellation.  SIGTSTP —
although subscribed via signal.Notify — falls through to the default case
of the switch, as does any other signal value. -/
def triggersShutdown : ListenEvent → Bool
  | ListenEvent.signal Sig.sigint => true
  | ListenEvent.signal Sig.sigterm => true
  | ListenEvent.ctxDone => true
  | _ => false

/-- Counterexample to claim C9 as stated: SIGTSTP is in the recognized
(subscribed) signal set, yet delivering it to the listener neither
invokes the shutdown routine nor stops the listening loop, and leaves
the manager's once-guard unfired — it is only logged. -/
theorem sigtstp_only_logged_counterexample :
    Sig.sigtstp ∈ signals ∧
    (Manager.handleSignals (mkManager (newOptions []))
        [ListenEvent.signal Sig.sigtstp]).shutdownInvocations = 0 ∧
    (Manager.handleSignals (mkManager (newOptions []))
        [ListenEvent.signal Sig.sigtstp]).stopped = false ∧
    (Manager.handleSignals (mkManager (newOptions []))
        [ListenEvent.signal Sig.sigtstp]).manager.shutdownOnceFired = false ∧
    (Manager.handleSignals (mkManager (newOptions []))
        [ListenEvent.signal Sig.sigtstp]).loggedLines =
      [listenLogLine (ListenEvent.signal Sig.sigtstp)] := by
  decide

/-- Amended claim C9, as one discipline over every finite schedule of
delivered wake-ups: the listener invokes the single-fire shutdown routine
exactly once and stops listening as soon as the schedule contains an
interrupt signal, a terminate signal or the parent-token cancellation,
having logged every earlier non-triggering delivery and then the
triggering cause itself; a schedule of other deliveries — the subscribed
suspend-request signal included — only logs each event, never triggers
shutdown, never stops the loop and leaves the manager untouched.  The
logged lines of a triggering schedule are the lines of its longest
trigger-free leading segment followed by the line of the first triggering
event. -/
theorem handleSignals_trigger_discipline (g : Manager)
    (evs : List ListenEvent) :
    ((Manager.handleSignals g evs).shutdownInvocations =
        if evs.any triggersShutdown then 1 else 0) ∧
    ((Manager.handleSignals g evs).stopped = evs.any triggersShutdown) ∧
    (evs.any triggersShutdown = false →
        (Manager.handleSignals g evs).manager = g ∧
        (Manager.handleSignals g evs).loggedLines = evs.map listenLogLine) ∧
    (evs.any triggersShutdown = true →
        (Manager.handleSignals g evs).manager = (g.doGracefulShutdown).1 ∧
        (Manager.handleSignals g evs).loggedLines =
          (evs.takeWhile (fun e => !triggersShutdown e)).map listenLogLine ++
            ((evs.dropWhile (fun e => !triggersShutdown e)).take 1).map
              listenLogLine) := by
  induction evs with
  | nil => simp [Manager.handleSignals, triggersShutdown]
  | cons e rest ih =>
      obtain ⟨ih1, ih2, ih3, ih4⟩ := ih
      cases e with
      | ctxDone =>
          simp [Manager.handleSignals, triggersShutdown,
            List.takeWhile_cons, List.dropWhile_cons]
      | signal s =>
          cases s with
          | sigint =>
              simp [Manager.handleSignals, triggersShutdown,
                List.takeWhile_cons, List.dropWhile_cons]
          | sigterm =>
              simp [Manager.handleSignals, triggersShutdown,
                List.takeWhile_cons, List.dropWhile_cons]
          | sigtstp =>
              refine ⟨?_, ?_, ?_, ?_⟩
              · simp [Manager.handleSignals, triggersShutdown, ih1]
              · simp [Manager.handleSignals, triggersShutdown, ih2]
              · intro hfalse
                simp only [List.any_cons, triggersShutdown,
                  Bool.false_or] at hfalse
                refine ⟨?_, ?_⟩
                · simp [Manager.handleSignals, (ih3 hfalse).1]
                · simp [Manager.handleSignals, (ih3 hfalse).2, listenLogLine]
              · intro htrue
                simp only [List.any_cons, triggersShutdown,
                  Bool.false_or] at htrue
                refine ⟨?_, ?_⟩
                · simp [Manager.handleSignals, (ih4 htrue).1]
                · simp [Manager.handleSignals, (ih4 htrue).2, triggersShutdown,
                    List.takeWhile_cons, List.dropWhile_cons, listenLogLine]
          | otherSig n =>
              refine ⟨?_, ?_, ?_, ?_⟩
              · simp [Manager.handleSignals, triggersShutdown, ih1]
              · simp [Manager.handleSignals, triggersShutdown, ih2]
              · intro hfalse
                simp only [List.any_cons, triggersShutdown,
                  Bool.false_or] at hfalse
                refine ⟨?_, ?_⟩
                · simp [Manager.handleSignals, (ih3 hfalse).1]
                · simp [Manager.handleSignals, (ih3 hfalse).2, listenLogLine]
              · intro htrue
                simp only [List.any_cons, triggersShutdown,
                  Bool.false_or] at htrue
                refine ⟨?_, ?_⟩
                · simp [Manager.handleSignals, (ih4 htrue).1]
                · simp [Manager.handleSignals, (ih4 htrue).2, triggersShutdown,
                    List.takeWhile_cons, List.dropWhile_cons, listenLogLine]

/-- Witness for the amended C9 at a triggering schedule: a SIGTSTP
delivery followed by SIGINT fires the shutdown routine, and the logged
lines are the SIGTSTP line followed by the SIGINT cause. -/
theorem handleSignals_trigger_discipline_witness :
    ([ListenEvent.signal Sig.sigtstp, ListenEvent.signal Sig.sigint].any
        triggersShutdown = true) ∧
      ((Manager.handleSignals (mkManager (newOptions []))
            [ListenEvent.signal Sig.sigtstp,
              ListenEvent.signal Sig.sigint]).manager =
          ((mkManager (newOptions [])).doGracefulShutdown).1 ∧
        (Manager.handleSignals (mkManager (newOptions []))
            [ListenEvent.signal Sig.sigtstp,
              ListenEvent.signal Sig.sigint]).loggedLines =
          ([ListenEvent.signal Sig.sigtstp,
              ListenEvent.signal Sig.sigint].takeWhile
                (fun e => !triggersShutdown e)).map listenLogLine ++
            (([ListenEvent.signal Sig.sigtstp,
                ListenEvent.signal Sig.sigint].dropWhile
                  (fun e => !triggersShutdown e)).take 1).map listenLogLine) :=
  ⟨by decide,
    (handleSignals_trigger_discipline (mkManager (newOptions []))
        [ListenEvent.signal Sig.sigtstp,
          ListenEvent.signal Sig.sigint]).2.2.2 (by decide)⟩

end Graceful
